import Mathlib

/-!
# Verification of the kompute Tensor memory/synchronization core

A shallow embedding of `src/include/kompute/Tensor.hpp` (class `kp::Tensor`
and the typed view `kp::TensorT<T>`).  The header inlines the typed-view
operations (`TensorT::setData`, `TensorT::data`, `TensorT::vector`,
`TensorT::operator[]`); those are embedded directly from the source.  The
bodies of the remaining member functions live in `Tensor.cpp`, which is not
part of the sources available here, so those operations are modelled from the
specification text; each such definition carries a doc comment saying so.

Modelling conventions:
* Vulkan handles (`vk::Buffer`, `vk::DeviceMemory`) are opaque `Nat` ids
  wrapped in `Option` (`none` = no handle / null).
* The host-visible memory region behind `mRawData` is `Option (List Nat)`:
  `none` models a null pointer, `some mem` a mapped region holding the
  tensor's elements (the typed view reads it element-wise, so the region is
  represented at element granularity rather than byte granularity).
* Recording into a `vk::CommandBuffer` is modelled as appending to a
  `List Command`; contract violations are `Except.error`.
-/

namespace kp

/-- `kp::Tensor::TensorTypes` from Tensor.hpp. -/
inductive TensorTypes
  | eDevice
  | eHost
  | eStorage
deriving DecidableEq, Repr

/-- `kp::Tensor::TensorDataTypes` from Tensor.hpp. -/
inductive TensorDataTypes
  | eBool
  | eInt
  | eUnsignedInt
  | eFloat
  | eDouble
deriving DecidableEq, Repr

/-- The `vk::AccessFlagBits` values used by the synchronization protocol. -/
inductive AccessFlagBits
  | transferWrite
  | transferRead
  | shaderRead
  | shaderWrite
deriving DecidableEq, Repr

/-- The `vk::PipelineStageFlagBits` values used by the synchronization
protocol. -/
inductive PipelineStageFlagBits
  | transfer
  | computeShader
deriving DecidableEq, Repr

/-- A command recorded into a `vk::CommandBuffer`: either a buffer-to-buffer
copy of a given byte size, or a buffer memory barrier with source and
destination access masks and pipeline stages. -/
inductive Command
  | copyBuffer (src : Nat) (dst : Nat) (size : Nat)
  | bufferMemoryBarrier (buffer : Nat) (srcAccessMask : AccessFlagBits)
      (dstAccessMask : AccessFlagBits) (srcStageMask : PipelineStageFlagBits)
      (dstStageMask : PipelineStageFlagBits)
deriving DecidableEq, Repr

/-- The state of a `kp::Tensor`: the member variables declared in
Tensor.hpp (lines 243-264).  `mRawData = none` models a null
`void* mRawData`; each optionally-owned resource slot is a handle paired
with its ownership flag (`mFree...`). -/
structure Tensor where
  mTensorType : TensorTypes
  mDataType : TensorDataTypes
  mSize : Nat
  mDataTypeMemorySize : Nat
  mRawData : Option (List Nat)
  mPrimaryBuffer : Option Nat
  mFreePrimaryBuffer : Bool
  mStagingBuffer : Option Nat
  mFreeStagingBuffer : Bool
  mPrimaryMemory : Option Nat
  mFreePrimaryMemory : Bool
  mStagingMemory : Option Nat
  mFreeStagingMemory : Bool
deriving DecidableEq, Repr

/-- `Tensor::size()`: the total number of elements. -/
def Tensor.size (t : Tensor) : Nat :=
  t.mSize

/-- `Tensor::dataTypeMemorySize()`: byte width of a single element. -/
def Tensor.dataTypeMemorySize (t : Tensor) : Nat :=
  t.mDataTypeMemorySize

/-- `Tensor::memorySize()`: per the header documentation it equates to
`this->size() * this->dataTypeMemorySize()`; the total byte size is derived,
not stored in a field of its own. -/
def Tensor.memorySize (t : Tensor) : Nat :=
  t.size * t.dataTypeMemorySize

/-- `Tensor::tensorType()`. -/
def Tensor.tensorType (t : Tensor) : TensorTypes :=
  t.mTensorType

/-- `Tensor::dataType()`. -/
def Tensor.dataType (t : Tensor) : TensorDataTypes :=
  t.mDataType

/-- `Tensor::rawData()`: the raw host-visible pointer; null (`none`) once the
tensor has been destroyed. -/
def Tensor.rawData (t : Tensor) : Option (List Nat) :=
  t.mRawData

/-- Modelled from the spec: the body of `Tensor::isInit()` is in Tensor.cpp,
which is not among the available sources.  The header documents it as
checking "whether tensor is initialized based on the created gpu resources";
the spec adds that after destruction it reports false.  Modelled as presence
of the primary buffer and its bound memory, the resources every kind
allocates. -/
def Tensor.isInit (t : Tensor) : Bool :=
  t.mPrimaryBuffer.isSome && t.mPrimaryMemory.isSome

/-- Modelled from the spec: the constructor body (and
`allocateMemoryCreateGPUResources`) is in Tensor.cpp, not among the
available sources.  Per spec section 4.3 the constructor eagerly creates the
primary buffer and memory for every kind, a staging buffer and memory only
for `eDevice`, marks all created resources owned, and for `eDevice` and
`eHost` maps the host-visible memory and copies the caller's initial data
into it (`totalByteSize` bytes); `eStorage` receives no host-side copy.
Handle ids 0-3 stand for the freshly created Vulkan handles. -/
def Tensor.construct (data : List Nat) (elementTotalCount : Nat)
    (elementMemorySize : Nat) (dataType : TensorDataTypes)
    (tensorType : TensorTypes) : Tensor :=
  { mTensorType := tensorType
    mDataType := dataType
    mSize := elementTotalCount
    mDataTypeMemorySize := elementMemorySize
    mRawData :=
      if tensorType = TensorTypes.eStorage then none
      else some (data.take elementTotalCount)
    mPrimaryBuffer := some 0
    mFreePrimaryBuffer := true
    mStagingBuffer :=
      if tensorType = TensorTypes.eDevice then some 1 else none
    mFreeStagingBuffer := tensorType = TensorTypes.eDevice
    mPrimaryMemory := some 2
    mFreePrimaryMemory := true
    mStagingMemory :=
      if tensorType = TensorTypes.eDevice then some 3 else none
    mFreeStagingMemory := tensorType = TensorTypes.eDevice }

/-- Modelled from the spec: the body of `Tensor::destroy()` is in Tensor.cpp,
not among the available sources.  Per spec sections 3 and 4.2, destruction
frees exactly the resources whose ownership flag is set, nulls `mRawData`,
and clears the resource slots so that a second call is a no-op.  The second
component of the result lists the handles freed by this call, in
buffer-before-memory order per resource pair. -/
def Tensor.destroy (t : Tensor) : Tensor × List Nat :=
  let freed :=
    (if t.mFreePrimaryBuffer then t.mPrimaryBuffer.toList else [])
      ++ (if t.mFreePrimaryMemory then t.mPrimaryMemory.toList else [])
      ++ (if t.mFreeStagingBuffer then t.mStagingBuffer.toList else [])
      ++ (if t.mFreeStagingMemory then t.mStagingMemory.toList else [])
  ({ t with
      mRawData := none
      mPrimaryBuffer := none
      mFreePrimaryBuffer := false
      mStagingBuffer := none
      mFreeStagingBuffer := false
      mPrimaryMemory := none
      mFreePrimaryMemory := false
      mStagingMemory := none
      mFreeStagingMemory := false }, freed)

/-- Modelled from the spec: the body of `Tensor::recordCopyFrom` is in
Tensor.cpp, not among the available sources.  Per spec section 4.4 it records
a copy of the source tensor's primary buffer into this tensor's primary
buffer, sized to the smaller of the two `totalByteSize` values, so that the
copy never reads or writes past either buffer's bound length.  Operating on
a tensor whose primary buffer is gone (destroyed) is a contract violation
per spec section 7. -/
def Tensor.recordCopyFrom (t : Tensor) (commandBuffer : List Command)
    (copyFromTensor : Tensor) : Except String (List Command) :=
  match copyFromTensor.mPrimaryBuffer, t.mPrimaryBuffer with
  | some src, some dst =>
      Except.ok (commandBuffer
        ++ [Command.copyBuffer src dst
              (min t.memorySize copyFromTensor.memorySize)])
  | _, _ => Except.error "Kompute Tensor copy recorded without primary buffer"

/-- Modelled from the spec: the body of
`Tensor::recordCopyFromStagingToDevice` is in Tensor.cpp, not among the
available sources.  Per spec section 4.4 it is valid only for
`kind = eDevice` (spec section 7: invoking a staging-only operation on a
`eHost` or `eStorage` tensor is a contract violation, an explicit error at
the call site); for an `eDevice` tensor it records, in order, (1) a copy of
`totalByteSize` bytes from the staging buffer to the primary buffer, then
(2) a memory barrier on the primary buffer transitioning from transfer-write
access at the transfer stage to the destination access and stage, which
default to shader-read at the compute-shader stage (the header declares no
caller-supplied destination parameters, so the defaults always apply). -/
def Tensor.recordCopyFromStagingToDevice (t : Tensor)
    (commandBuffer : List Command) : Except String (List Command) :=
  if t.mTensorType ≠ TensorTypes.eDevice then
    Except.error "Kompute Tensor staging copy invalid on non-device tensor"
  else
    match t.mStagingBuffer, t.mPrimaryBuffer with
    | some staging, some primary =>
        Except.ok (commandBuffer
          ++ [Command.copyBuffer staging primary t.memorySize,
              Command.bufferMemoryBarrier primary
                AccessFlagBits.transferWrite AccessFlagBits.shaderRead
                PipelineStageFlagBits.transfer
                PipelineStageFlagBits.computeShader])
    | _, _ =>
        Except.error "Kompute Tensor staging copy recorded without buffers"

/-- Modelled from the spec: the body of
`Tensor::recordCopyFromDeviceToStaging` is in Tensor.cpp, not among the
available sources.  Per spec section 4.4 it is valid only for
`kind = eDevice` (otherwise a contract violation, an explicit error at the
call site per spec section 7); for an `eDevice` tensor it records, in order,
(1) a memory barrier on the primary buffer transitioning from its prior
GPU-write state (shader-write access at the compute-shader stage) to
transfer-read access at the transfer stage, then (2) a copy of
`totalByteSize` bytes from the primary buffer to the staging buffer. -/
def Tensor.recordCopyFromDeviceToStaging (t : Tensor)
    (commandBuffer : List Command) : Except String (List Command) :=
  if t.mTensorType ≠ TensorTypes.eDevice then
    Except.error "Kompute Tensor staging copy invalid on non-device tensor"
  else
    match t.mStagingBuffer, t.mPrimaryBuffer with
    | some staging, some primary =>
        Except.ok (commandBuffer
          ++ [Command.bufferMemoryBarrier primary
                AccessFlagBits.shaderWrite AccessFlagBits.transferRead
                PipelineStageFlagBits.computeShader
                PipelineStageFlagBits.transfer,
              Command.copyBuffer primary staging t.memorySize])
    | _, _ =>
        Except.error "Kompute Tensor staging copy recorded without buffers"

/-- Modelled from the spec: the body of `Tensor::setRawData` is in
Tensor.cpp, not among the available sources.  Per spec section 4.5 it
overwrites the host-visible memory in place (memcpy-equivalent of
`totalByteSize` bytes, i.e. `mSize` elements of the element-granular
region) without affecting buffer or memory handles and without any GPU-side
action. -/
def Tensor.setRawData (t : Tensor) (data : List Nat) : Tensor :=
  { t with mRawData := some (data.take t.mSize) }

/-- `TensorT<T>::setData` (Tensor.hpp lines 326-338), embedded from the
source: if `data.size() != this->mSize` it throws
"Kompute TensorT Cannot set data of different sizes" before any byte is
written; otherwise it delegates to `Tensor::setRawData(data.data())`.  A
thrown exception is `Except.error`. -/
def TensorT.setData (t : Tensor) (data : List Nat) : Except String Tensor :=
  if data.length ≠ t.mSize then
    Except.error "Kompute TensorT Cannot set data of different sizes"
  else
    Except.ok (t.setRawData data)

/-- `TensorT<T>::data()` (Tensor.hpp line 317), embedded from the source:
`return (T*)this->mRawData;` — a cast of the raw pointer, returned
unconditionally; the member never throws, so the result is always
`Except.ok` of the (possibly null) pointer. -/
def TensorT.data (t : Tensor) : Except String (Option (List Nat)) :=
  Except.ok t.mRawData

/-- `TensorT<T>::vector()` (Tensor.hpp lines 319-322), embedded from the
source: constructs a vector from the range `[(T*)mRawData, (T*)mRawData +
size())` with no initialization check and never throws.  When `mRawData` is
null the C++ reads through a null pointer (undefined behavior, not a
surfaced error); that outcome is modelled as a normal return of `none`. -/
def TensorT.vector (t : Tensor) : Except String (Option (List Nat)) :=
  Except.ok (t.mRawData.map (fun mem => mem.take t.mSize))

/-- `TensorT<T>::operator[]` (Tensor.hpp line 324), embedded from the
source: `return *(((T*)this->mRawData) + index);` — it forms the reference
at signed element offset `index` from the raw data pointer, with no bounds
check and no initialization check, and never throws.  The returned
reference is modelled as the pair (base pointer, signed element offset). -/
def TensorT.getOp (t : Tensor) (index : Int) :
    Except String (Option (List Nat) × Int) :=
  Except.ok (t.mRawData, index)

/-- Dereferencing a reference produced by `TensorT::getOp`: defined only
when the base pointer is non-null and the offset lies inside the region;
`none` marks an access whose C++ counterpart is undefined behavior. -/
def derefRef (r : Option (List Nat) × Int) : Option Nat :=
  match r with
  | (none, _) => none
  | (some mem, i) =>
      if 0 ≤ i ∧ i < (mem.length : Int) then mem.get? i.toNat else none

/-! Concrete sample tensors used by witnesses and counterexamples. -/

/-- A Device tensor of four 4-byte float elements (`totalByteSize` 16). -/
def devSample : Tensor :=
  Tensor.construct [1, 2, 3, 4] 4 4 TensorDataTypes.eFloat TensorTypes.eDevice

/-- A Device tensor of two 4-byte float elements (`totalByteSize` 8). -/
def devSmallSample : Tensor :=
  Tensor.construct [7, 8] 2 4 TensorDataTypes.eFloat TensorTypes.eDevice

/-- A Storage tensor of two 4-byte float elements. -/
def storageSample : Tensor :=
  Tensor.construct [1, 2] 2 4 TensorDataTypes.eFloat TensorTypes.eStorage

/-- C1: for every tensor of kind Device (with its staging and primary
buffers present), `recordCopyFromStagingToDevice` records into the given
command buffer, in this order: first a copy of `memorySize` (=
`totalByteSize`) bytes from the staging buffer to the primary buffer, then a
memory barrier on the primary buffer transitioning from transfer-write
access at the transfer pipeline stage to the destination access/stage,
which defaults to shader-read access at the compute-shader stage. -/
theorem recordCopyFromStagingToDevice_copy_then_barrier
    (t : Tensor) (cb : List Command) (staging primary : Nat)
    (hType : t.tensorType = TensorTypes.eDevice)
    (hs : t.mStagingBuffer = some staging)
    (hp : t.mPrimaryBuffer = some primary) :
    t.recordCopyFromStagingToDevice cb =
      Except.ok (cb ++
        [Command.copyBuffer staging primary t.memorySize,
         Command.bufferMemoryBarrier primary AccessFlagBits.transferWrite
           AccessFlagBits.shaderRead PipelineStageFlagBits.transfer
           PipelineStageFlagBits.computeShader]) := by
  simp only [Tensor.tensorType] at hType
  simp [Tensor.recordCopyFromStagingToDevice, hType, hs, hp]

/-- Witness for C1: the copy-then-barrier order at a concrete Device
tensor, with staging handle 1 and primary handle 0. -/
theorem recordCopyFromStagingToDevice_copy_then_barrier_witness :
    devSample.recordCopyFromStagingToDevice [] =
      Except.ok ([] ++
        [Command.copyBuffer 1 0 devSample.memorySize,
         Command.bufferMemoryBarrier 0 AccessFlagBits.transferWrite
           AccessFlagBits.shaderRead PipelineStageFlagBits.transfer
           PipelineStageFlagBits.computeShader]) :=
  recordCopyFromStagingToDevice_copy_then_barrier devSample [] 1 0
    (by decide) (by decide) (by decide)

/-- C2: for every tensor of kind Device (with its staging and primary
buffers present), `recordCopyFromDeviceToStaging` records into the given
command buffer, in this order: first a memory barrier on the primary buffer
transitioning from the prior GPU-write state (shader-write access at the
compute-shader stage) to transfer-read access at the transfer stage, then a
copy of `memorySize` (= `totalByteSize`) bytes from the primary buffer to
the staging buffer. -/
theorem recordCopyFromDeviceToStaging_barrier_then_copy
    (t : Tensor) (cb : List Command) (staging primary : Nat)
    (hType : t.tensorType = TensorTypes.eDevice)
    (hs : t.mStagingBuffer = some staging)
    (hp : t.mPrimaryBuffer = some primary) :
    t.recordCopyFromDeviceToStaging cb =
      Except.ok (cb ++
        [Command.bufferMemoryBarrier primary AccessFlagBits.shaderWrite
           AccessFlagBits.transferRead PipelineStageFlagBits.computeShader
           PipelineStageFlagBits.transfer,
         Command.copyBuffer primary staging t.memorySize]) := by
  simp only [Tensor.tensorType] at hType
  simp [Tensor.recordCopyFromDeviceToStaging, hType, hs, hp]

/-- Witness for C2: the barrier-then-copy order at a concrete Device
tensor, with staging handle 1 and primary handle 0. -/
theorem recordCopyFromDeviceToStaging_barrier_then_copy_witness :
    devSample.recordCopyFromDeviceToStaging [] =
      Except.ok ([] ++
        [Command.bufferMemoryBarrier 0 AccessFlagBits.shaderWrite
           AccessFlagBits.transferRead PipelineStageFlagBits.computeShader
           PipelineStageFlagBits.transfer,
         Command.copyBuffer 0 1 devSample.memorySize]) :=
  recordCopyFromDeviceToStaging_barrier_then_copy devSample [] 1 0
    (by decide) (by decide) (by decide)

/-- C3: for every destination/source pair of tensors (with their primary
buffers present), `recordCopyFrom` records a copy of the source's primary
buffer into the destination's primary buffer sized to the minimum of the
two `totalByteSize` values, and that size never exceeds either tensor's
bound length. -/
theorem recordCopyFrom_min_of_sizes
    (t : Tensor) (cb : List Command) (copyFromTensor : Tensor)
    (src dst : Nat)
    (hsrc : copyFromTensor.mPrimaryBuffer = some src)
    (hdst : t.mPrimaryBuffer = some dst) :
    t.recordCopyFrom cb copyFromTensor =
      Except.ok (cb ++
        [Command.copyBuffer src dst
          (min t.memorySize copyFromTensor.memorySize)]) ∧
    min t.memorySize copyFromTensor.memorySize ≤ copyFromTensor.memorySize ∧
    min t.memorySize copyFromTensor.memorySize ≤ t.memorySize := by
  refine ⟨?_, min_le_right _ _, min_le_left _ _⟩
  simp [Tensor.recordCopyFrom, hsrc, hdst]

/-- Witness for C3, the spec's own example: copying from a 16-byte source
into an 8-byte destination records a copy of exactly 8 bytes, which exceeds
neither bound. -/
theorem recordCopyFrom_min_of_sizes_witness :
    devSmallSample.recordCopyFrom [] devSample =
      Except.ok ([] ++
        [Command.copyBuffer 0 0
          (min devSmallSample.memorySize devSample.memorySize)]) ∧
    min devSmallSample.memorySize devSample.memorySize ≤
      devSample.memorySize ∧
    min devSmallSample.memorySize devSample.memorySize ≤
      devSmallSample.memorySize :=
  recordCopyFrom_min_of_sizes devSmallSample [] devSample 0 0
    (by decide) (by decide)

/-- C4: for every tensor and every input whose length differs from the
tensor's element count (`size()`), `setData` fails with the sizing error.
The exception is thrown before `Tensor::setRawData` is reached, so no
successor state exists and the tensor's host-visible data is untouched:
the operation produces only the error, never an updated tensor. -/
theorem setData_size_mismatch_fails (t : Tensor) (data : List Nat)
    (h : data.length ≠ t.size) :
    TensorT.setData t data =
      Except.error "Kompute TensorT Cannot set data of different sizes" := by
  simp only [Tensor.size] at h
  simp [TensorT.setData, h]

/-- Witness for C4: a three-element input against a four-element tensor is
rejected with the sizing error. -/
theorem setData_size_mismatch_fails_witness :
    TensorT.setData devSample [1, 2, 3] =
      Except.error "Kompute TensorT Cannot set data of different sizes" :=
  setData_size_mismatch_fails devSample [1, 2, 3] (by decide)

/-- C5: for every tensor of kind Storage, both staging-copy operations
(`recordCopyFromStagingToDevice` and `recordCopyFromDeviceToStaging`) fail
with an explicit contract-violation error; neither returns the command
buffer unchanged, so the call is never a silent no-op. -/
theorem storage_staging_copy_fails (t : Tensor) (cb : List Command)
    (h : t.tensorType = TensorTypes.eStorage) :
    t.recordCopyFromStagingToDevice cb =
      Except.error
        "Kompute Tensor staging copy invalid on non-device tensor" ∧
    t.recordCopyFromDeviceToStaging cb =
      Except.error
        "Kompute Tensor staging copy invalid on non-device tensor" := by
  simp only [Tensor.tensorType] at h
  constructor
  · simp [Tensor.recordCopyFromStagingToDevice, h]
  · simp [Tensor.recordCopyFromDeviceToStaging, h]

/-- Witness for C5: a concrete Storage tensor is rejected by both
staging-copy operations. -/
theorem storage_staging_copy_fails_witness :
    storageSample.recordCopyFromStagingToDevice [] =
      Except.error
        "Kompute Tensor staging copy invalid on non-device tensor" ∧
    storageSample.recordCopyFromDeviceToStaging [] =
      Except.error
        "Kompute Tensor staging copy invalid on non-device tensor" :=
  storage_staging_copy_fails storageSample [] (by decide)

/-- C6: for every initialized tensor, after the first `destroy()` the raw
data pointer is null and `isInit()` is false, and a second `destroy()` is a
no-op: it changes no state and frees no resource (the freed-handle list of
the second call is empty), so nothing is freed twice and no error is
raised. -/
theorem destroy_idempotent (t : Tensor) (_h : t.isInit = true) :
    t.destroy.1.rawData = none ∧
    t.destroy.1.isInit = false ∧
    t.destroy.1.destroy = (t.destroy.1, []) := by
  refine ⟨rfl, rfl, ?_⟩
  simp [Tensor.destroy]

/-- Witness for C6: destroying a concrete initialized Device tensor nulls
the raw pointer, reports uninitialized, and a second destroy is a no-op. -/
theorem destroy_idempotent_witness :
    devSample.isInit = true ∧
    (devSample.destroy.1.rawData = none ∧
     devSample.destroy.1.isInit = false ∧
     devSample.destroy.1.destroy = (devSample.destroy.1, [])) :=
  ⟨by decide, destroy_idempotent devSample (by decide)⟩

/-- C7: for every valid construction input (kind, element count, element
byte size) with element count at least 1, the freshly constructed tensor
satisfies `memorySize() == size() * dataTypeMemorySize()` and
`isInit() == true`.  The first conjunct holds because `memorySize` is
derived as that product from its factors and never stored in a field of its
own. -/
theorem construct_memorySize_and_isInit (data : List Nat)
    (elementTotalCount elementMemorySize : Nat)
    (dataType : TensorDataTypes) (tensorType : TensorTypes) (t : Tensor)
    (_hCount : 1 ≤ elementTotalCount)
    (ht : t = Tensor.construct data elementTotalCount elementMemorySize
      dataType tensorType) :
    t.memorySize = t.size * t.dataTypeMemorySize ∧ t.isInit = true := by
  subst ht
  exact ⟨rfl, rfl⟩

/-- Witness for C7: a concrete construction with element count 4. -/
theorem construct_memorySize_and_isInit_witness :
    1 ≤ 4 ∧
    (devSample.memorySize = devSample.size * devSample.dataTypeMemorySize ∧
     devSample.isInit = true) :=
  ⟨by decide,
   construct_memorySize_and_isInit [1, 2, 3, 4] 4 4 TensorDataTypes.eFloat
     TensorTypes.eDevice devSample (by decide) rfl⟩

/-- C8: for every tensor and every input whose length equals the tensor's
element count, `setData` succeeds and overwrites the host-visible memory in
place with exactly the input elements, while the buffer handles, memory
handles, size, data type and tensor kind are all unchanged.  `setData`
takes no command buffer and records no command, so no GPU-side action is
performed. -/
theorem setData_matching_overwrites_in_place (t : Tensor) (data : List Nat)
    (h : data.length = t.size) :
    TensorT.setData t data = Except.ok (t.setRawData data) ∧
    (t.setRawData data).mRawData = some data ∧
    (t.setRawData data).mPrimaryBuffer = t.mPrimaryBuffer ∧
    (t.setRawData data).mStagingBuffer = t.mStagingBuffer ∧
    (t.setRawData data).mPrimaryMemory = t.mPrimaryMemory ∧
    (t.setRawData data).mStagingMemory = t.mStagingMemory ∧
    (t.setRawData data).size = t.size ∧
    (t.setRawData data).dataType = t.dataType ∧
    (t.setRawData data).tensorType = t.tensorType := by
  simp only [Tensor.size] at h
  refine ⟨?_, ?_, rfl, rfl, rfl, rfl, rfl, rfl, rfl⟩
  · simp [TensorT.setData, h]
  · simp [Tensor.setRawData, ← h, List.take_length]

/-- Witness for C8: overwriting a four-element tensor with four new
elements updates only the host-visible data. -/
theorem setData_matching_overwrites_in_place_witness :
    TensorT.setData devSample [5, 6, 7, 8] =
      Except.ok (devSample.setRawData [5, 6, 7, 8]) ∧
    (devSample.setRawData [5, 6, 7, 8]).mRawData = some [5, 6, 7, 8] ∧
    (devSample.setRawData [5, 6, 7, 8]).mPrimaryBuffer =
      devSample.mPrimaryBuffer ∧
    (devSample.setRawData [5, 6, 7, 8]).mStagingBuffer =
      devSample.mStagingBuffer ∧
    (devSample.setRawData [5, 6, 7, 8]).mPrimaryMemory =
      devSample.mPrimaryMemory ∧
    (devSample.setRawData [5, 6, 7, 8]).mStagingMemory =
      devSample.mStagingMemory ∧
    (devSample.setRawData [5, 6, 7, 8]).size = devSample.size ∧
    (devSample.setRawData [5, 6, 7, 8]).dataType = devSample.dataType ∧
    (devSample.setRawData [5, 6, 7, 8]).tensorType = devSample.tensorType :=
  setData_matching_overwrites_in_place devSample [5, 6, 7, 8] (by decide)

/-- C9 counterexample: on a concrete destroyed Device tensor
(`isInit() == false`), the data accessors `data<T>()` and `vector<T>()`
return normally instead of surfacing an error: `data()` hands back the null
raw-data pointer and `vector()` reads through it, so the claim that every
data-access operation on a destroyed tensor is surfaced as an explicit
error is false. -/
theorem destroyed_access_no_error_counterexample :
    devSmallSample.destroy.1.isInit = false ∧
    TensorT.data devSmallSample.destroy.1 = Except.ok none ∧
    TensorT.vector devSmallSample.destroy.1 = Except.ok none :=
  ⟨rfl, rfl, rfl⟩

/-- C9 amended: for every tensor, after `destroy()` the tensor reports
`isInit() == false`, yet the typed accessors `data<T>()` and `vector<T>()`
perform no initialization check and raise no error: `data()` returns the
null raw-data pointer and `vector()` reads through it (undefined behavior
in the C++, not a surfaced error); data access on a destroyed tensor is
not rejected at the call site. -/
theorem destroyed_access_returns_without_error (t : Tensor) :
    t.destroy.1.isInit = false ∧
    TensorT.data t.destroy.1 = Except.ok none ∧
    TensorT.vector t.destroy.1 = Except.ok none := by
  exact ⟨rfl, rfl, rfl⟩

/-- C10: for every tensor view and every signed index, `operator[]`
performs no bounds or initialization check: even when the index is
negative, at least `size()`, or the tensor has been destroyed, it returns
(without raising any error) the reference at signed element offset `index`
from the raw data pointer; for a negative index dereferencing that
reference is undefined behavior (no value), yet the operation itself still
returned normally. -/
theorem opIndex_unchecked (t : Tensor) (index : Int)
    (_h : index < 0 ∨ (t.size : Int) ≤ index ∨ t.isInit = false) :
    TensorT.getOp t index = Except.ok (t.mRawData, index) ∧
    (index < 0 → derefRef (t.mRawData, index) = none) := by
  refine ⟨rfl, fun hneg => ?_⟩
  cases hraw : t.mRawData with
  | none => simp [derefRef]
  | some mem =>
      simp only [derefRef]
      rw [if_neg]
      intro hcon
      exact absurd hcon.1 (not_le.mpr hneg)

/-- Witness for C10: indexing a live four-element tensor at -1 returns the
out-of-range reference without any error, and dereferencing it is
undefined. -/
theorem opIndex_unchecked_witness :
    ((-1 : Int) < 0 ∨ ((devSample.size : Int) ≤ -1 ∨
      devSample.isInit = false)) ∧
    (TensorT.getOp devSample (-1) =
      Except.ok (devSample.mRawData, -1) ∧
     ((-1 : Int) < 0 → derefRef (devSample.mRawData, -1) = none)) :=
  ⟨Or.inl (by decide),
   opIndex_unchecked devSample (-1) (Or.inl (by decide))⟩

end kp
